import Mathlib

/-!
# Cannon trace provider (op-challenger/fault/cannon/cannon_provider.go)

A shallow embedding of `CannonTraceProvider`: the disk-backed lookup of the
proof record of a trace index, with generation on a miss.

* Go error values are the inductive `GoError` (`errors.New`, `fmt.Errorf` with
  one `%w`, and error values produced outside the file).
* The file system, the generator calls, the opens and the decodes performed so
  far are an explicit `World` threaded through every operation; the three logs
  are ghost state that only records what was called.
* `filepath.Join` and the JSON decoding of a proof file are library code: they
  are the two fields of `Env` and every theorem holds for all of them.
-/

namespace Cannon

/-! ## Go errors -/

/-- Go error values as this file sees them. -/
inductive GoError where
  /-- The value of `errors.New(s)`. -/
  | errorString (s : String)
  /-- The value of `fmt.Errorf` with one `%w` verb: the formatted message and the wrapped error. -/
  | wrapError (msg : String) (err : GoError)
  /-- An error value made outside this file (by `os.Open`, the JSON decoder or the
  generator): its message, and whether `errors.Is(e, os.ErrNotExist)` holds of it. -/
  | external (msg : String) (notExist : Bool)
  deriving DecidableEq, Repr

/-- The method `Error()`: the message of an error. -/
def GoError.Error : GoError → String
  | .errorString s => s
  | .wrapError msg _ => msg
  | .external msg _ => msg

/-- The method `Unwrap()` as `errors.Unwrap` sees it: the cause of an error, if it has one. -/
def GoError.Unwrap : GoError → Option GoError
  | .errorString _ => none
  | .wrapError _ err => some err
  | .external _ _ => none

/-- The test `errors.Is(err, os.ErrNotExist)` on a non-nil error: follows the `Unwrap` chain. -/
def errorsIsNotExist : GoError → Bool
  | .errorString _ => false
  | .wrapError _ err => errorsIsNotExist err
  | .external _ notExist => notExist

/-- The call `fmt.Errorf(format, ..., err)` where `format` ends in `: %w` and `msg` is the
formatted text before the `%w` verb. -/
def Errorf (msg : String) (err : GoError) : GoError :=
  .wrapError (msg ++ err.Error) err

/-! ## Data model -/

/-- The constant `proofsDir`. -/
def proofsDir : String := "proofs"

/-- The struct `proofData`; `hexutil.Bytes` is a byte slice. -/
structure proofData where
  ClaimValue : List UInt8
  StateData : List UInt8
  ProofData : List UInt8
  deriving DecidableEq, Repr

/-- The constant `common.HashLength` of go-ethereum. -/
def HashLength : Nat := 32

/-- The type `common.Hash` of go-ethereum: an array of `HashLength` bytes. -/
structure Hash where
  bytes : List UInt8
  size_eq : bytes.length = HashLength

instance : DecidableEq Hash := fun a b =>
  if h : a.bytes = b.bytes then
    isTrue (by cases a; cases b; simp at h; subst h; rfl)
  else
    isFalse (fun e => h (by rw [e]))

/-- The zero value `common.Hash{}`. -/
def Hash.zero : Hash := ⟨List.replicate HashLength 0, by simp⟩

/-- The builtin `copy(dst, src)`: overwrites the first `min (len dst) (len src)` bytes of
`dst` with those of `src`. -/
def copy (dst src : List UInt8) : List UInt8 :=
  src.take dst.length ++ dst.drop src.length

/-- Modelled from the spec: the method `(*Hash).SetBytes` is go-ethereum library code and is
not among the sources. The model follows the library body
`if len(b) > len(h) { b = b[len(b)-HashLength:] }; copy(h[HashLength-len(b):], b)`,
which is the behaviour the specification relies on: a value longer than 32 bytes is cropped
from the left and a shorter one is right-aligned in the zero-filled array. -/
def Hash.SetBytes (h : Hash) (b : List UInt8) : Hash :=
  let b := if b.length > h.bytes.length then b.drop (b.length - HashLength) else b
  ⟨h.bytes.take (HashLength - b.length) ++ copy (h.bytes.drop (HashLength - b.length)) b, by
    have := h.size_eq
    simp only [copy, List.length_append, List.length_take, List.length_drop]
    omega⟩

/-- Modelled from the spec: the function `common.BytesToHash` is go-ethereum library code and
is not among the sources. The model follows the library body
`var h Hash; h.SetBytes(b); return h`. -/
def BytesToHash (b : List UInt8) : Hash :=
  Hash.zero.SetBytes b

/-! ## The world: file system, generator, logs -/

/-- What `os.Open` gives for each path: the content of the file or the error. -/
abbrev FileSystem := String → Except GoError (List UInt8)

/-- The interface `ProofGenerator`: `GenerateProof(dataDir, proofAt)` returns nil or an
error and may change the file system. -/
structure ProofGenerator where
  GenerateProof : String → Nat → FileSystem → Option GoError × FileSystem

/-- The struct `CannonTraceProvider`. -/
structure CannonTraceProvider where
  dir : String
  generator : ProofGenerator

/-- The library functions the provider calls. -/
structure Env where
  /-- The function `filepath.Join`. -/
  Join : List String → String
  /-- The call `json.NewDecoder(file).Decode(&proof)` on the content of an opened file. -/
  Decode : List UInt8 → Except GoError proofData

/-- The state threaded through a call: the file system and the log of the calls made. -/
structure World where
  fs : FileSystem
  /-- The paths passed to `os.Open`, oldest first. -/
  opens : List String
  /-- The arguments of the `GenerateProof` calls, oldest first. -/
  generated : List (String × Nat)
  /-- The contents passed to the decoder, oldest first. -/
  decoded : List (List UInt8)

/-- The call `os.Open(path)`. -/
def osOpen (path : String) (w : World) : Except GoError (List UInt8) × World :=
  (w.fs path, { w with opens := w.opens ++ [path] })

/-- The call `p.generator.GenerateProof(p.dir, i)`. -/
def callGenerateProof (p : CannonTraceProvider) (i : Nat) (w : World) : Option GoError × World :=
  let r := p.generator.GenerateProof p.dir i w.fs
  (r.1, { w with fs := r.2, generated := w.generated ++ [(p.dir, i)] })

/-- The call `json.NewDecoder(file).Decode(&proof)`. -/
def jsonDecode (env : Env) (content : List UInt8) (w : World) : Except GoError proofData × World :=
  (env.Decode content, { w with decoded := w.decoded ++ [content] })

/-! ## The provider -/

/-- The path `filepath.Join(p.dir, proofsDir, fmt.Sprintf("%d.json", i))`. -/
def proofPath (env : Env) (p : CannonTraceProvider) (i : Nat) : String :=
  env.Join [p.dir, proofsDir, toString i ++ ".json"]

/-- The lines of `loadProof` from `if err != nil` on, given the `(file, err)` of the last open. -/
def loadProofOpened (env : Env) (path : String) (r : Except GoError (List UInt8)) (w : World) :
    Except GoError proofData × World :=
  match r with
  | .error err => (.error (Errorf ("cannot open proof file (" ++ path ++ "): ") err), w)
  | .ok file =>
    match jsonDecode env file w with
    | (.error err, w1) => (.error (Errorf ("failed to read proof (" ++ path ++ "): ") err), w1)
    | (.ok proof, w1) => (.ok proof, w1)

/-- The method `loadProof`. -/
def loadProof (env : Env) (p : CannonTraceProvider) (i : Nat) (w : World) :
    Except GoError proofData × World :=
  let path := proofPath env p i
  match osOpen path w with
  | (.error err, w1) =>
    if errorsIsNotExist err then
      match callGenerateProof p i w1 with
      | (some gerr, w2) =>
        (.error (Errorf ("generate cannon trace with proof at " ++ toString i ++ ": ") gerr), w2)
      | (none, w2) =>
        -- Try opening the file again now and it should exist.
        match osOpen path w2 with
        | (r2, w3) => loadProofOpened env path r2 w3
    else loadProofOpened env path (.error err) w1
  | (.ok file, w1) => loadProofOpened env path (.ok file) w1

/-- The method `Get`. -/
def Get (env : Env) (p : CannonTraceProvider) (i : Nat) (w : World) : Except GoError Hash × World :=
  match loadProof env p i w with
  | (.error err, w1) => (.error err, w1)
  | (.ok proof, w1) =>
    let value := BytesToHash proof.ClaimValue
    if value = Hash.zero then
      (.error (.errorString "proof missing post hash"), w1)
    else (.ok value, w1)

/-- The method `GetPreimage`. -/
def GetPreimage (env : Env) (p : CannonTraceProvider) (i : Nat) (w : World) :
    Except GoError (List UInt8 × List UInt8) × World :=
  match loadProof env p i w with
  | (.error err, w1) => (.error err, w1)
  | (.ok proof, w1) =>
    let value := proof.StateData
    if value.length = 0 then
      (.error (.errorString "proof missing state data"), w1)
    else
      let data := proof.ProofData
      if data.length = 0 then
        (.error (.errorString "proof missing proof data"), w1)
      else (.ok (value, data), w1)

/-- How a Go call ends: it returns a value, or it panics with a message. -/
inductive Outcome (α : Type) where
  | returned (a : α)
  | panicked (msg : String)
  deriving DecidableEq, Repr

/-- The method `AbsolutePreState`: its result type is `[]byte` alone and its body is one `panic`. -/
def AbsolutePreState (_p : CannonTraceProvider) : Outcome (List UInt8) :=
  .panicked "absolute prestate not yet supported"

/-! ## The claim word the specification describes -/

/-- The 32-byte value in the words of the specification: the last 32 bytes of `v` when `v`
is longer than 32 bytes, and `v` left-padded with zero bytes when it is shorter. -/
def lastBytesPadded (v : List UInt8) : List UInt8 :=
  if v.length > 32 then v.drop (v.length - 32) else List.replicate (32 - v.length) 0 ++ v

/-- The message of `e` contains the text `s`. -/
def GoError.mentions (e : GoError) (s : String) : Prop :=
  s.data <:+: e.Error.data

instance (e : GoError) (s : String) : Decidable (e.mentions s) := by
  unfold GoError.mentions
  infer_instance

/-! ## Sample inputs -/

deriving instance DecidableEq for Except

/-- A file system holding exactly the listed files; every other path does not exist. -/
def fsOf (files : List (String × List UInt8)) : FileSystem := fun path =>
  match files.lookup path with
  | some c => .ok c
  | none => .error (.external ("open " ++ path ++ ": no such file or directory") true)

/-- A decoder that knows the listed contents and rejects every other content. -/
def tableDecode (table : List (List UInt8 × proofData)) (content : List UInt8) :
    Except GoError proofData :=
  match table.lookup content with
  | some r => .ok r
  | none => .error (.external "invalid character" false)

/-- A generator that leaves the listed files behind and reports success. -/
def writingGenerator (files : List (String × List UInt8)) : ProofGenerator where
  GenerateProof := fun _ _ _ => (none, fsOf files)

/-- A generator that changes nothing and reports the error `msg`. -/
def failingGenerator (msg : String) : ProofGenerator where
  GenerateProof := fun _ _ fs => (some (.external msg false), fs)

/-- A generator that changes nothing and reports success. -/
def idleGenerator : ProofGenerator where
  GenerateProof := fun _ _ fs => (none, fs)

/-- The record with `post` = `0xaa` 32 times, `state-data` = `0x01`, `proof-data` = `0x02`. -/
def recordA : proofData := ⟨List.replicate 32 0xaa, [0x01], [0x02]⟩

/-- A record whose `post` is 32 zero bytes. -/
def recordZero : proofData := ⟨List.replicate 32 0, [0x01], [0x02]⟩

/-- A record whose `post` is 33 bytes: a non-zero byte and then 32 zero bytes. -/
def recordLong : proofData := ⟨1 :: List.replicate 32 0, [0x01], [0x02]⟩

/-- A record with state data and no proof data. -/
def recordNoProof : proofData := ⟨List.replicate 32 0xaa, [0x01], []⟩

def fileA : List UInt8 := [0x41]
def fileZero : List UInt8 := [0x5a]
def fileLong : List UInt8 := [0x4c]
def fileNoProof : List UInt8 := [0x4e]
def fileBad : List UInt8 := [0x7b]

def sampleEnv : Env where
  Join := fun xs => "/".intercalate xs
  Decode := tableDecode
    [(fileA, recordA), (fileZero, recordZero), (fileLong, recordLong), (fileNoProof, recordNoProof)]

/-- A world with the given file system and empty logs. -/
def worldOf (fs : FileSystem) : World := ⟨fs, [], [], []⟩

/-- The provider over `/tmp/x` whose generator writes `content` as the proof file of index 5. -/
def providerWriting (content : List UInt8) : CannonTraceProvider :=
  ⟨"/tmp/x", writingGenerator [("/tmp/x/proofs/5.json", content)]⟩

def providerFailing : CannonTraceProvider := ⟨"/tmp/x", failingGenerator "emulator crashed"⟩

def providerIdle : CannonTraceProvider := ⟨"/tmp/x", idleGenerator⟩

/-- The error of a failed generation at index 5 with cause `emulator crashed`. -/
def sampleGenerationFailure : GoError :=
  .wrapError "generate cannon trace with proof at 5: emulator crashed"
    (.external "emulator crashed" false)

/-! ## Lemmas on the embedding -/

theorem loadProofOpened_world (env : Env) (path : String) (r : Except GoError (List UInt8))
    (w : World) :
    (loadProofOpened env path r w).2.fs = w.fs ∧
    (loadProofOpened env path r w).2.opens = w.opens ∧
    (loadProofOpened env path r w).2.generated = w.generated := by
  cases r with
  | error err => simp [loadProofOpened]
  | ok file =>
    simp only [loadProofOpened, jsonDecode]
    cases env.Decode file <;> simp

theorem loadProofOpened_error (env : Env) (path : String) (err : GoError) (w : World) :
    loadProofOpened env path (.error err) w =
      (.error (Errorf ("cannot open proof file (" ++ path ++ "): ") err), w) := rfl

theorem loadProofOpened_decode_error (env : Env) (path : String) (file : List UInt8)
    (derr : GoError) (w : World) (h : env.Decode file = .error derr) :
    (loadProofOpened env path (.ok file) w).1 =
      .error (Errorf ("failed to read proof (" ++ path ++ "): ") derr) := by
  simp [loadProofOpened, jsonDecode, h]

theorem loadProofOpened_decode_ok (env : Env) (path : String) (file : List UInt8)
    (proof : proofData) (w : World) (h : env.Decode file = .ok proof) :
    (loadProofOpened env path (.ok file) w).1 = .ok proof := by
  simp [loadProofOpened, jsonDecode, h]

theorem loadProof_of_open_ok (env : Env) (p : CannonTraceProvider) (i : Nat) (w : World)
    (file : List UInt8) (h : w.fs (proofPath env p i) = .ok file) :
    loadProof env p i w =
      loadProofOpened env (proofPath env p i) (.ok file)
        { w with opens := w.opens ++ [proofPath env p i] } := by
  simp [loadProof, osOpen, h]

theorem loadProof_of_open_error (env : Env) (p : CannonTraceProvider) (i : Nat) (w : World)
    (err : GoError) (h : w.fs (proofPath env p i) = .error err)
    (hne : errorsIsNotExist err = false) :
    loadProof env p i w =
      (.error (Errorf ("cannot open proof file (" ++ proofPath env p i ++ "): ") err),
        { w with opens := w.opens ++ [proofPath env p i] }) := by
  simp [loadProof, osOpen, h, hne, loadProofOpened]

theorem loadProof_of_generate_error (env : Env) (p : CannonTraceProvider) (i : Nat) (w : World)
    (err gerr : GoError) (fs2 : FileSystem) (h : w.fs (proofPath env p i) = .error err)
    (hne : errorsIsNotExist err = true)
    (hgen : p.generator.GenerateProof p.dir i w.fs = (some gerr, fs2)) :
    loadProof env p i w =
      (.error (Errorf ("generate cannon trace with proof at " ++ toString i ++ ": ") gerr),
        { fs := fs2, opens := w.opens ++ [proofPath env p i],
          generated := w.generated ++ [(p.dir, i)], decoded := w.decoded }) := by
  simp [loadProof, osOpen, h, hne, callGenerateProof, hgen]

theorem loadProof_of_generate_ok (env : Env) (p : CannonTraceProvider) (i : Nat) (w : World)
    (err : GoError) (fs2 : FileSystem) (h : w.fs (proofPath env p i) = .error err)
    (hne : errorsIsNotExist err = true)
    (hgen : p.generator.GenerateProof p.dir i w.fs = (none, fs2)) :
    loadProof env p i w =
      loadProofOpened env (proofPath env p i) (fs2 (proofPath env p i))
        { fs := fs2, opens := w.opens ++ [proofPath env p i, proofPath env p i],
          generated := w.generated ++ [(p.dir, i)], decoded := w.decoded } := by
  simp [loadProof, osOpen, h, hne, callGenerateProof, hgen]

theorem Get_world (env : Env) (p : CannonTraceProvider) (i : Nat) (w : World) :
    (Get env p i w).2 = (loadProof env p i w).2 := by
  unfold Get
  rcases loadProof env p i w with ⟨r | proof, w1⟩
  · rfl
  · dsimp only
    split <;> rfl

theorem GetPreimage_world (env : Env) (p : CannonTraceProvider) (i : Nat) (w : World) :
    (GetPreimage env p i w).2 = (loadProof env p i w).2 := by
  unfold GetPreimage
  rcases loadProof env p i w with ⟨r | proof, w1⟩
  · rfl
  · dsimp only
    split
    · rfl
    · split <;> rfl

theorem Get_of_loadProof_error (env : Env) (p : CannonTraceProvider) (i : Nat) (w : World)
    (e : GoError) (h : (loadProof env p i w).1 = .error e) : (Get env p i w).1 = .error e := by
  unfold Get
  rcases hl : loadProof env p i w with ⟨r | proof, w1⟩
  · rw [hl] at h
    simpa using h
  · rw [hl] at h
    simp at h

theorem GetPreimage_of_loadProof_error (env : Env) (p : CannonTraceProvider) (i : Nat)
    (w : World) (e : GoError) (h : (loadProof env p i w).1 = .error e) :
    (GetPreimage env p i w).1 = .error e := by
  unfold GetPreimage
  rcases hl : loadProof env p i w with ⟨r | proof, w1⟩
  · rw [hl] at h
    simpa using h
  · rw [hl] at h
    simp at h

theorem Get_of_loadProof_ok (env : Env) (p : CannonTraceProvider) (i : Nat) (w : World)
    (proof : proofData) (h : (loadProof env p i w).1 = .ok proof) :
    (Get env p i w).1 =
      if BytesToHash proof.ClaimValue = Hash.zero then
        .error (.errorString "proof missing post hash")
      else .ok (BytesToHash proof.ClaimValue) := by
  unfold Get
  rcases hl : loadProof env p i w with ⟨r | proof1, w1⟩
  · rw [hl] at h
    simp at h
  · rw [hl] at h
    simp only [Except.ok.injEq] at h
    subst h
    dsimp only
    split <;> rfl

theorem GetPreimage_of_loadProof_ok (env : Env) (p : CannonTraceProvider) (i : Nat)
    (w : World) (proof : proofData) (h : (loadProof env p i w).1 = .ok proof) :
    (GetPreimage env p i w).1 =
      if proof.StateData.length = 0 then .error (.errorString "proof missing state data")
      else if proof.ProofData.length = 0 then .error (.errorString "proof missing proof data")
      else .ok (proof.StateData, proof.ProofData) := by
  unfold GetPreimage
  rcases hl : loadProof env p i w with ⟨r | proof1, w1⟩
  · rw [hl] at h
    simp at h
  · rw [hl] at h
    simp only [Except.ok.injEq] at h
    subst h
    dsimp only
    split
    · rfl
    · split <;> rfl

theorem Hash.eq_of_bytes_eq (a b : Hash) (h : a.bytes = b.bytes) : a = b := by
  cases a
  cases b
  simp only at h
  subst h
  rfl

theorem copy_into_zeros (n : Nat) (b : List UInt8) (hb : b.length ≤ n) :
    (List.replicate n (0 : UInt8)).take (n - b.length) ++
        copy ((List.replicate n (0 : UInt8)).drop (n - b.length)) b =
      List.replicate (n - b.length) 0 ++ b := by
  have h1 : n - (n - b.length) = b.length := by omega
  have h2 : min (n - b.length) n = n - b.length := by omega
  simp only [copy, List.take_replicate, List.drop_replicate, List.length_replicate, h1, h2,
    List.take_length, Nat.sub_self, List.replicate_zero, List.append_nil]

theorem BytesToHash_bytes (v : List UInt8) : (BytesToHash v).bytes = lastBytesPadded v := by
  unfold BytesToHash Hash.SetBytes lastBytesPadded
  have hz : Hash.zero.bytes = List.replicate HashLength 0 := rfl
  have hH : HashLength = 32 := rfl
  simp only [hz, List.length_replicate]
  by_cases hlen : v.length > 32
  · have hb : (v.drop (v.length - HashLength)).length ≤ HashLength := by
      simp only [List.length_drop]
      omega
    have hb2 : HashLength - (v.drop (v.length - HashLength)).length = 0 := by
      simp only [List.length_drop]
      omega
    rw [if_pos (by rw [hH]; exact hlen), copy_into_zeros HashLength _ hb, hb2, if_pos hlen, hH]
    simp
  · rw [if_neg (by rw [hH]; exact hlen), copy_into_zeros HashLength v (by omega), if_neg hlen, hH]

theorem BytesToHash_eq_zero_iff (v : List UInt8) :
    BytesToHash v = Hash.zero ↔ lastBytesPadded v = List.replicate 32 0 := by
  constructor
  · intro h
    rw [← BytesToHash_bytes, h]
    rfl
  · intro h
    apply Hash.eq_of_bytes_eq
    rw [BytesToHash_bytes, h]
    rfl

theorem lastBytesPadded_of_length_eq (v : List UInt8) (h : v.length = 32) :
    lastBytesPadded v = v := by
  simp [lastBytesPadded, h]

theorem Errorf_ne_of_head (a b : String) (x y : GoError) (ca cb : Char) (ra rb : List Char)
    (ha : a.data = ca :: ra) (hb : b.data = cb :: rb) (hne : ca ≠ cb) :
    Errorf a x ≠ Errorf b y := by
  intro h
  simp only [Errorf, GoError.wrapError.injEq] at h
  have h2 := congrArg String.data h.1
  simp only [String.data_append, ha, hb, List.cons_append, List.cons.injEq] at h2
  exact hne h2.1

theorem wrapError_mentions (a s b x : String) (c : GoError) :
    (GoError.wrapError (a ++ s ++ b ++ x) c).mentions s := by
  refine ⟨a.data, b.data ++ x.data, ?_⟩
  simp [GoError.Error, String.data_append]

theorem digitChar_isDigit (k : Nat) (hk : k < 10) : (Nat.digitChar k).isDigit = true := by
  revert k
  decide

theorem toDigitsCore_digits (fuel : Nat) :
    ∀ (n : Nat) (ds : List Char), ∃ pre : List Char,
      Nat.toDigitsCore 10 fuel n ds = pre ++ ds ∧ (∀ c ∈ pre, c.isDigit = true) ∧
        (0 < fuel → pre ≠ []) := by
  induction fuel with
  | zero =>
    intro n ds
    exact ⟨[], rfl, by simp, by simp⟩
  | succ fuel ih =>
    intro n ds
    have hd : (Nat.digitChar (n % 10)).isDigit = true :=
      digitChar_isDigit _ (Nat.mod_lt _ (by decide))
    by_cases h0 : n / 10 = 0
    · refine ⟨[Nat.digitChar (n % 10)], ?_, ?_, by simp⟩
      · simp [Nat.toDigitsCore, h0]
      · intro c hc
        rw [List.mem_singleton] at hc
        rw [hc]
        exact hd
    · rcases ih (n / 10) (Nat.digitChar (n % 10) :: ds) with ⟨pre, hpre, hall, _⟩
      refine ⟨pre ++ [Nat.digitChar (n % 10)], ?_, ?_, by simp⟩
      · simp [Nat.toDigitsCore, h0, hpre]
      · intro c hc
        rcases List.mem_append.1 hc with h | h
        · exact hall c h
        · rw [List.mem_singleton] at h
          rw [h]
          exact hd

theorem toString_nat_digits (i : Nat) :
    (toString i).data ≠ [] ∧ ∀ c ∈ (toString i).data, c.isDigit = true := by
  rcases toDigitsCore_digits (i + 1) i [] with ⟨pre, hpre, hall, hne⟩
  have hdata : (toString i).data = pre := by
    show (Nat.toDigits 10 i).asString.data = pre
    rw [Nat.toDigits, hpre, List.append_nil]
    rfl
  rw [hdata]
  exact ⟨hne (Nat.succ_pos i), hall⟩

theorem not_mentions_index (msg : String) (i : Nat)
    (hmsg : ∀ c ∈ msg.data, c.isDigit = false) :
    ¬ (GoError.errorString msg).mentions (toString i) := by
  rintro ⟨pre, post, hinf⟩
  rcases toString_nat_digits i with ⟨hne, hall⟩
  cases hs : (toString i).data with
  | nil => exact hne hs
  | cons c rest =>
    have hc : c ∈ msg.data := by
      have : c ∈ pre ++ (toString i).data ++ post := by
        rw [hs]
        simp
      rw [hinf] at this
      exact this
    have h1 := hmsg c hc
    have h2 := hall c (by rw [hs]; simp)
    rw [h1] at h2
    exact Bool.noConfusion h2

theorem loadProof_error_origin (env : Env) (p : CannonTraceProvider) (i : Nat) (w : World)
    (e : GoError) (h : (loadProof env p i w).1 = .error e) :
    (∃ err c fs2, w.fs (proofPath env p i) = .error err ∧ errorsIsNotExist err = true ∧
        p.generator.GenerateProof p.dir i w.fs = (some c, fs2) ∧
        e = .wrapError ("generate cannon trace with proof at " ++ toString i ++ ": " ++
          c.Error) c) ∨
      (∃ c, (w.fs (proofPath env p i) = .error c ∧ errorsIsNotExist c = false ∨
          ∃ err fs2, w.fs (proofPath env p i) = .error err ∧ errorsIsNotExist err = true ∧
            p.generator.GenerateProof p.dir i w.fs = (none, fs2) ∧
            fs2 (proofPath env p i) = .error c) ∧
        e = .wrapError ("cannot open proof file (" ++ proofPath env p i ++ "): " ++
          c.Error) c) ∨
      (∃ file c, (w.fs (proofPath env p i) = .ok file ∨
          ∃ err fs2, w.fs (proofPath env p i) = .error err ∧ errorsIsNotExist err = true ∧
            p.generator.GenerateProof p.dir i w.fs = (none, fs2) ∧
            fs2 (proofPath env p i) = .ok file) ∧
        env.Decode file = .error c ∧
        e = .wrapError ("failed to read proof (" ++ proofPath env p i ++ "): " ++
          c.Error) c) := by
  cases hfs : w.fs (proofPath env p i) with
  | ok file =>
    rw [loadProof_of_open_ok env p i w file hfs] at h
    cases hd : env.Decode file with
    | error derr =>
      rw [loadProofOpened_decode_error env _ file derr _ hd] at h
      simp only [Except.error.injEq] at h
      exact Or.inr (Or.inr ⟨file, derr, Or.inl rfl, hd, h.symm⟩)
    | ok proof =>
      rw [loadProofOpened_decode_ok env _ file proof _ hd] at h
      simp at h
  | error err =>
    cases hne : errorsIsNotExist err with
    | false =>
      rw [loadProof_of_open_error env p i w err hfs hne] at h
      simp only [Except.error.injEq] at h
      exact Or.inr (Or.inl ⟨err, Or.inl ⟨rfl, hne⟩, h.symm⟩)
    | true =>
      rcases hgen : p.generator.GenerateProof p.dir i w.fs with ⟨_ | gerr, fs2⟩
      · rw [loadProof_of_generate_ok env p i w err fs2 hfs hne hgen] at h
        cases hf2 : fs2 (proofPath env p i) with
        | error err2 =>
          rw [hf2, loadProofOpened_error] at h
          simp only [Except.error.injEq] at h
          exact Or.inr (Or.inl ⟨err2, Or.inr ⟨err, fs2, rfl, hne, rfl, hf2⟩, h.symm⟩)
        | ok file =>
          rw [hf2] at h
          cases hd : env.Decode file with
          | error derr =>
            rw [loadProofOpened_decode_error env _ file derr _ hd] at h
            simp only [Except.error.injEq] at h
            exact Or.inr (Or.inr ⟨file, derr, Or.inr ⟨err, fs2, rfl, hne, rfl, hf2⟩, hd,
              h.symm⟩)
          | ok proof =>
            rw [loadProofOpened_decode_ok env _ file proof _ hd] at h
            simp at h
      · rw [loadProof_of_generate_error env p i w err gerr fs2 hfs hne hgen] at h
        simp only [Except.error.injEq] at h
        exact Or.inl ⟨err, gerr, fs2, rfl, hne, rfl, h.symm⟩

theorem Get_error_cases (env : Env) (p : CannonTraceProvider) (i : Nat) (w : World)
    (e : GoError) (h : (Get env p i w).1 = .error e) :
    (loadProof env p i w).1 = .error e ∨ e = .errorString "proof missing post hash" := by
  cases hl : (loadProof env p i w).1 with
  | error e1 =>
    rw [Get_of_loadProof_error env p i w e1 hl] at h
    simp only [Except.error.injEq] at h
    exact Or.inl (by rw [h])
  | ok proof =>
    rw [Get_of_loadProof_ok env p i w proof hl] at h
    split at h
    · simp only [Except.error.injEq] at h
      exact Or.inr h.symm
    · simp at h

theorem GetPreimage_error_cases (env : Env) (p : CannonTraceProvider) (i : Nat) (w : World)
    (e : GoError) (h : (GetPreimage env p i w).1 = .error e) :
    (loadProof env p i w).1 = .error e ∨ e = .errorString "proof missing state data" ∨
      e = .errorString "proof missing proof data" := by
  cases hl : (loadProof env p i w).1 with
  | error e1 =>
    rw [GetPreimage_of_loadProof_error env p i w e1 hl] at h
    simp only [Except.error.injEq] at h
    exact Or.inl (by rw [h])
  | ok proof =>
    rw [GetPreimage_of_loadProof_ok env p i w proof hl] at h
    split at h
    · simp only [Except.error.injEq] at h
      exact Or.inr (Or.inl h.symm)
    · split at h
      · simp only [Except.error.injEq] at h
        exact Or.inr (Or.inr h.symm)
      · simp at h

/-! ## Generation on a miss -/

/-- C1: one call of `Get(i)` or `GetPreimage(i)` adds to the log of `GenerateProof` calls
exactly the one entry `(dir, i)` when the first open of the proof file fails with an error
for which `errors.Is(err, os.ErrNotExist)` holds, and adds nothing in every other case (the
file opens, or the open fails with another error). -/
theorem generateProof_calls (env : Env) (p : CannonTraceProvider) (i : Nat) (w : World) :
    (Get env p i w).2.generated =
        w.generated ++
          (match w.fs (proofPath env p i) with
            | .error err => if errorsIsNotExist err then [(p.dir, i)] else []
            | .ok _ => []) ∧
      (GetPreimage env p i w).2.generated =
        w.generated ++
          (match w.fs (proofPath env p i) with
            | .error err => if errorsIsNotExist err then [(p.dir, i)] else []
            | .ok _ => []) := by
  rw [Get_world, GetPreimage_world, and_self]
  cases h : w.fs (proofPath env p i) with
  | ok file =>
    rw [loadProof_of_open_ok env p i w file h, (loadProofOpened_world _ _ _ _).2.2]
    simp
  | error err =>
    cases hne : errorsIsNotExist err with
    | false =>
      rw [loadProof_of_open_error env p i w err h hne]
      simp [hne]
    | true =>
      rcases hgen : p.generator.GenerateProof p.dir i w.fs with ⟨_ | gerr, fs2⟩
      · rw [loadProof_of_generate_ok env p i w err fs2 h hne hgen,
          (loadProofOpened_world _ _ _ _).2.2]
        simp [hne]
      · rw [loadProof_of_generate_error env p i w err gerr fs2 h hne hgen]
        simp [hne]

/-- C2: when the proof file of index `i` is absent, `GenerateProof(dir, i)` reports success
and leaves a file at the path that decodes to a record, `Get(i)` and `GetPreimage(i)` on the
original state return exactly what they return on the state whose file system is the one the
generator left. -/
theorem read_after_generation (env : Env) (p : CannonTraceProvider) (i : Nat) (w : World)
    (err : GoError) (fs2 : FileSystem) (file : List UInt8) (proof : proofData)
    (habsent : w.fs (proofPath env p i) = .error err) (hne : errorsIsNotExist err = true)
    (hgen : p.generator.GenerateProof p.dir i w.fs = (none, fs2))
    (hfile : fs2 (proofPath env p i) = .ok file) (hdec : env.Decode file = .ok proof) :
    (Get env p i w).1 = (Get env p i { w with fs := fs2 }).1 ∧
      (GetPreimage env p i w).1 = (GetPreimage env p i { w with fs := fs2 }).1 := by
  have h1 : (loadProof env p i w).1 = .ok proof := by
    rw [loadProof_of_generate_ok env p i w err fs2 habsent hne hgen, hfile]
    exact loadProofOpened_decode_ok env _ file proof _ hdec
  have h2 : (loadProof env p i { w with fs := fs2 }).1 = .ok proof := by
    rw [loadProof_of_open_ok env p i { w with fs := fs2 } file hfile]
    exact loadProofOpened_decode_ok env _ file proof _ hdec
  rw [Get_of_loadProof_ok env p i w proof h1, Get_of_loadProof_ok env p i _ proof h2,
    GetPreimage_of_loadProof_ok env p i w proof h1,
    GetPreimage_of_loadProof_ok env p i _ proof h2]
  exact ⟨rfl, rfl⟩

/-- Witness of C2: index 5, absent at first; the generator writes the record with `post` =
`0xaa` 32 times, `state-data` = `0x01`, `proof-data` = `0x02`; `Get(5)` returns that hash and
`GetPreimage(5)` returns `([0x01], [0x02])`, on both states. -/
theorem read_after_generation_witness :
    ((Get sampleEnv (providerWriting fileA) 5 (worldOf (fsOf []))).1 =
        (Get sampleEnv (providerWriting fileA) 5
          { worldOf (fsOf []) with fs := fsOf [("/tmp/x/proofs/5.json", fileA)] }).1 ∧
      (GetPreimage sampleEnv (providerWriting fileA) 5 (worldOf (fsOf []))).1 =
        (GetPreimage sampleEnv (providerWriting fileA) 5
          { worldOf (fsOf []) with fs := fsOf [("/tmp/x/proofs/5.json", fileA)] }).1) ∧
    (Get sampleEnv (providerWriting fileA) 5 (worldOf (fsOf []))).1 =
      .ok ⟨List.replicate 32 0xaa, by decide⟩ ∧
    (GetPreimage sampleEnv (providerWriting fileA) 5 (worldOf (fsOf []))).1 =
      .ok ([0x01], [0x02]) :=
  ⟨read_after_generation sampleEnv (providerWriting fileA) 5 (worldOf (fsOf []))
      (.external "open /tmp/x/proofs/5.json: no such file or directory" true)
      (fsOf [("/tmp/x/proofs/5.json", fileA)]) fileA recordA
      (by decide) (by decide) rfl (by decide) (by decide),
    by decide, by decide⟩

/-- C3: when the proof file of index `i` is absent, `GenerateProof` reports success and the
second open fails with any error `err2`, `Get(i)` and `GetPreimage(i)` fail with the error
whose message is `cannot open proof file (path): ` followed by the message of `err2` and whose
cause is `err2`; the path was opened exactly twice (the first attempt and one more) and
`GenerateProof` was called exactly once. -/
theorem reopen_failure (env : Env) (p : CannonTraceProvider) (i : Nat) (w : World)
    (err err2 : GoError) (fs2 : FileSystem)
    (habsent : w.fs (proofPath env p i) = .error err) (hne : errorsIsNotExist err = true)
    (hgen : p.generator.GenerateProof p.dir i w.fs = (none, fs2))
    (hfile : fs2 (proofPath env p i) = .error err2) :
    (Get env p i w).1 =
        .error (.wrapError ("cannot open proof file (" ++ proofPath env p i ++ "): " ++
          err2.Error) err2) ∧
      (GetPreimage env p i w).1 =
        .error (.wrapError ("cannot open proof file (" ++ proofPath env p i ++ "): " ++
          err2.Error) err2) ∧
      (GoError.wrapError ("cannot open proof file (" ++ proofPath env p i ++ "): " ++
          err2.Error) err2).Unwrap = some err2 ∧
      (GoError.wrapError ("cannot open proof file (" ++ proofPath env p i ++ "): " ++
          err2.Error) err2).mentions (proofPath env p i) ∧
      (Get env p i w).2.opens = w.opens ++ [proofPath env p i, proofPath env p i] ∧
      (GetPreimage env p i w).2.opens = w.opens ++ [proofPath env p i, proofPath env p i] ∧
      (Get env p i w).2.generated = w.generated ++ [(p.dir, i)] ∧
      (GetPreimage env p i w).2.generated = w.generated ++ [(p.dir, i)] := by
  have hl := loadProof_of_generate_ok env p i w err fs2 habsent hne hgen
  rw [hfile, loadProofOpened_error] at hl
  refine ⟨Get_of_loadProof_error env p i w _ (by rw [hl]; rfl),
    GetPreimage_of_loadProof_error env p i w _ (by rw [hl]; rfl), rfl,
    wrapError_mentions _ _ _ _ _, ?_, ?_, ?_, ?_⟩ <;>
  simp [Get_world, GetPreimage_world, hl]

/-- Witness of C3: index 5 is absent and the generator reports success without writing; the
error returned has the message
`cannot open proof file (/tmp/x/proofs/5.json): open /tmp/x/proofs/5.json: no such file or directory`. -/
theorem reopen_failure_witness :
    ((Get sampleEnv providerIdle 5 (worldOf (fsOf []))).1 =
        .error (.wrapError ("cannot open proof file (" ++ proofPath sampleEnv providerIdle 5 ++
            "): " ++
            (GoError.external "open /tmp/x/proofs/5.json: no such file or directory" true).Error)
          (.external "open /tmp/x/proofs/5.json: no such file or directory" true)) ∧
      (GetPreimage sampleEnv providerIdle 5 (worldOf (fsOf []))).1 =
        .error (.wrapError ("cannot open proof file (" ++ proofPath sampleEnv providerIdle 5 ++
            "): " ++
            (GoError.external "open /tmp/x/proofs/5.json: no such file or directory" true).Error)
          (.external "open /tmp/x/proofs/5.json: no such file or directory" true)) ∧
      (GoError.wrapError ("cannot open proof file (" ++ proofPath sampleEnv providerIdle 5 ++
            "): " ++
            (GoError.external "open /tmp/x/proofs/5.json: no such file or directory" true).Error)
          (.external "open /tmp/x/proofs/5.json: no such file or directory" true)).Unwrap =
        some (.external "open /tmp/x/proofs/5.json: no such file or directory" true) ∧
      (GoError.wrapError ("cannot open proof file (" ++ proofPath sampleEnv providerIdle 5 ++
            "): " ++
            (GoError.external "open /tmp/x/proofs/5.json: no such file or directory" true).Error)
          (.external "open /tmp/x/proofs/5.json: no such file or directory" true)).mentions
        (proofPath sampleEnv providerIdle 5) ∧
      (Get sampleEnv providerIdle 5 (worldOf (fsOf []))).2.opens =
        (worldOf (fsOf [])).opens ++
          [proofPath sampleEnv providerIdle 5, proofPath sampleEnv providerIdle 5] ∧
      (GetPreimage sampleEnv providerIdle 5 (worldOf (fsOf []))).2.opens =
        (worldOf (fsOf [])).opens ++
          [proofPath sampleEnv providerIdle 5, proofPath sampleEnv providerIdle 5] ∧
      (Get sampleEnv providerIdle 5 (worldOf (fsOf []))).2.generated =
        (worldOf (fsOf [])).generated ++ [(providerIdle.dir, 5)] ∧
      (GetPreimage sampleEnv providerIdle 5 (worldOf (fsOf []))).2.generated =
        (worldOf (fsOf [])).generated ++ [(providerIdle.dir, 5)]) ∧
    (Get sampleEnv providerIdle 5 (worldOf (fsOf []))).1 =
      .error (.wrapError
        "cannot open proof file (/tmp/x/proofs/5.json): open /tmp/x/proofs/5.json: no such file or directory"
        (.external "open /tmp/x/proofs/5.json: no such file or directory" true)) ∧
    (Get sampleEnv providerIdle 5 (worldOf (fsOf []))).2.opens =
      ["/tmp/x/proofs/5.json", "/tmp/x/proofs/5.json"] ∧
    (Get sampleEnv providerIdle 5 (worldOf (fsOf []))).2.generated = [("/tmp/x", 5)] :=
  ⟨reopen_failure sampleEnv providerIdle 5 (worldOf (fsOf []))
    (.external "open /tmp/x/proofs/5.json: no such file or directory" true)
    (.external "open /tmp/x/proofs/5.json: no such file or directory" true)
    (fsOf []) (by decide) (by decide) rfl (by decide), by decide, by decide, by decide⟩

/-- C4: when the proof file of index `i` is absent and `GenerateProof(dir, i)` returns the
error `gerr`, `Get(i)` and `GetPreimage(i)` fail with the error whose message is
`generate cannon trace with proof at i: ` followed by the message of `gerr` and whose cause
is `gerr`; the path was opened once only and nothing was decoded. -/
theorem generation_failure (env : Env) (p : CannonTraceProvider) (i : Nat) (w : World)
    (err gerr : GoError) (fs2 : FileSystem)
    (habsent : w.fs (proofPath env p i) = .error err) (hne : errorsIsNotExist err = true)
    (hgen : p.generator.GenerateProof p.dir i w.fs = (some gerr, fs2)) :
    (Get env p i w).1 =
        .error (.wrapError ("generate cannon trace with proof at " ++ toString i ++ ": " ++
          gerr.Error) gerr) ∧
      (GetPreimage env p i w).1 =
        .error (.wrapError ("generate cannon trace with proof at " ++ toString i ++ ": " ++
          gerr.Error) gerr) ∧
      (Get env p i w).2.opens = w.opens ++ [proofPath env p i] ∧
      (GetPreimage env p i w).2.opens = w.opens ++ [proofPath env p i] ∧
      (Get env p i w).2.decoded = w.decoded ∧
      (GetPreimage env p i w).2.decoded = w.decoded := by
  have hl := loadProof_of_generate_error env p i w err gerr fs2 habsent hne hgen
  refine ⟨Get_of_loadProof_error env p i w _ (by rw [hl]; rfl),
    GetPreimage_of_loadProof_error env p i w _ (by rw [hl]; rfl), ?_, ?_, ?_, ?_⟩ <;>
  simp [Get_world, GetPreimage_world, hl]

/-- Witness of C4: index 5 is absent and the generator fails with `emulator crashed`. -/
theorem generation_failure_witness :
    (Get sampleEnv providerFailing 5 (worldOf (fsOf []))).1 =
        .error (.wrapError ("generate cannon trace with proof at " ++ toString 5 ++ ": " ++
          (GoError.external "emulator crashed" false).Error)
          (.external "emulator crashed" false)) ∧
      (GetPreimage sampleEnv providerFailing 5 (worldOf (fsOf []))).1 =
        .error (.wrapError ("generate cannon trace with proof at " ++ toString 5 ++ ": " ++
          (GoError.external "emulator crashed" false).Error)
          (.external "emulator crashed" false)) ∧
      (Get sampleEnv providerFailing 5 (worldOf (fsOf []))).2.opens =
        (worldOf (fsOf [])).opens ++ [proofPath sampleEnv providerFailing 5] ∧
      (GetPreimage sampleEnv providerFailing 5 (worldOf (fsOf []))).2.opens =
        (worldOf (fsOf [])).opens ++ [proofPath sampleEnv providerFailing 5] ∧
      (Get sampleEnv providerFailing 5 (worldOf (fsOf []))).2.decoded =
        (worldOf (fsOf [])).decoded ∧
      (GetPreimage sampleEnv providerFailing 5 (worldOf (fsOf []))).2.decoded =
        (worldOf (fsOf [])).decoded :=
  generation_failure sampleEnv providerFailing 5 (worldOf (fsOf []))
    (.external "open /tmp/x/proofs/5.json: no such file or directory" true)
    (.external "emulator crashed" false) (fsOf []) (by decide) (by decide) rfl

/-! ## Validation of a decoded record -/

/-- C5: when the record of index `i` loads and decodes with a `post` value of exactly 32
bytes, `Get(i)` fails with `proof missing post hash` if those bytes are all zero, and otherwise
returns the hash whose 32 bytes are exactly the `post` value. -/
theorem get_claim_of_32_bytes (env : Env) (p : CannonTraceProvider) (i : Nat) (w : World)
    (proof : proofData) (hload : (loadProof env p i w).1 = .ok proof)
    (hlen : proof.ClaimValue.length = 32) :
    (Get env p i w).1 =
      if proof.ClaimValue = List.replicate 32 0 then
        .error (.errorString "proof missing post hash")
      else .ok ⟨proof.ClaimValue, hlen⟩ := by
  rw [Get_of_loadProof_ok env p i w proof hload]
  have hb := BytesToHash_bytes proof.ClaimValue
  rw [lastBytesPadded_of_length_eq _ hlen] at hb
  have hz := BytesToHash_eq_zero_iff proof.ClaimValue
  rw [lastBytesPadded_of_length_eq _ hlen] at hz
  by_cases h0 : proof.ClaimValue = List.replicate 32 0
  · rw [if_pos (hz.2 h0), if_pos h0]
  · rw [if_neg (fun h => h0 (hz.1 h)), if_neg h0]
    exact congrArg Except.ok (Hash.eq_of_bytes_eq _ _ hb)

/-- Witness of C5: the stored record of index 5 has `post` = `0xaa` 32 times. -/
theorem get_claim_of_32_bytes_witness :
    (Get sampleEnv providerIdle 5 (worldOf (fsOf [("/tmp/x/proofs/5.json", fileA)]))).1 =
      if recordA.ClaimValue = List.replicate 32 0 then
        .error (.errorString "proof missing post hash")
      else .ok ⟨recordA.ClaimValue, by decide⟩ :=
  get_claim_of_32_bytes sampleEnv providerIdle 5
    (worldOf (fsOf [("/tmp/x/proofs/5.json", fileA)])) recordA (by decide) (by decide)

/-- C6: when the record of index `i` loads and decodes with state bytes `s` and proof bytes
`p`, `GetPreimage(i)` fails with `proof missing state data` if `s` is empty (whatever `p` is),
fails with `proof missing proof data` if `s` is not empty and `p` is, and otherwise returns
`(s, p)` in that order. -/
theorem get_preimage_of_record (env : Env) (p : CannonTraceProvider) (i : Nat) (w : World)
    (proof : proofData) (hload : (loadProof env p i w).1 = .ok proof) :
    (GetPreimage env p i w).1 =
      if proof.StateData = [] then .error (.errorString "proof missing state data")
      else if proof.ProofData = [] then .error (.errorString "proof missing proof data")
      else .ok (proof.StateData, proof.ProofData) := by
  rw [GetPreimage_of_loadProof_ok env p i w proof hload]
  simp only [List.length_eq_zero]

/-- Witness of C6: the stored record of index 5 has state data and no proof data. -/
theorem get_preimage_of_record_witness :
    (GetPreimage sampleEnv providerIdle 5
        (worldOf (fsOf [("/tmp/x/proofs/5.json", fileNoProof)]))).1 =
      if recordNoProof.StateData = [] then .error (.errorString "proof missing state data")
      else if recordNoProof.ProofData = [] then .error (.errorString "proof missing proof data")
      else .ok (recordNoProof.StateData, recordNoProof.ProofData) :=
  get_preimage_of_record sampleEnv providerIdle 5
    (worldOf (fsOf [("/tmp/x/proofs/5.json", fileNoProof)])) recordNoProof (by decide)

/-- C10: `Get` accepts a `post` value of any length. For every decoded record with `post`
bytes `v`, `Get` decides on the 32-byte value `h` made of the last 32 bytes of `v` when `v` is
longer than 32 bytes and of `v` left-padded with zero bytes when it is shorter: it fails with
`proof missing post hash` iff `h` is all zero and returns `h` otherwise. So an empty `post`
fails with that error, and so does a `post` longer than 32 bytes whose last 32 bytes are
zero. -/
theorem get_claim_of_any_length (env : Env) (p : CannonTraceProvider) (i : Nat) (w : World)
    (proof : proofData) (hload : (loadProof env p i w).1 = .ok proof) :
    (∃ h : Hash, h.bytes = lastBytesPadded proof.ClaimValue ∧
        (Get env p i w).1 =
          if h.bytes = List.replicate 32 0 then .error (.errorString "proof missing post hash")
          else .ok h) ∧
      (proof.ClaimValue = [] →
        (Get env p i w).1 = .error (.errorString "proof missing post hash")) ∧
      (32 < proof.ClaimValue.length →
        proof.ClaimValue.drop (proof.ClaimValue.length - 32) = List.replicate 32 0 →
        (Get env p i w).1 = .error (.errorString "proof missing post hash")) := by
  have hget := Get_of_loadProof_ok env p i w proof hload
  have hz := BytesToHash_eq_zero_iff proof.ClaimValue
  refine ⟨⟨BytesToHash proof.ClaimValue, BytesToHash_bytes _, ?_⟩, ?_, ?_⟩
  · rw [hget, BytesToHash_bytes]
    by_cases h0 : lastBytesPadded proof.ClaimValue = List.replicate 32 0
    · rw [if_pos (hz.2 h0), if_pos h0]
    · rw [if_neg (fun h => h0 (hz.1 h)), if_neg h0]
  · intro hnil
    rw [hget, if_pos (hz.2 (by rw [hnil]; rfl))]
  · intro hlong hzero
    rw [hget, if_pos (hz.2 (by rw [lastBytesPadded, if_pos hlong, hzero]))]

/-- Witness of C10: the stored record of index 5 has a `post` of 33 bytes, a non-zero byte
followed by 32 zero bytes, and `Get(5)` fails with `proof missing post hash`. -/
theorem get_claim_of_any_length_witness :
    recordLong.ClaimValue ≠ List.replicate 33 0 ∧
      (Get sampleEnv providerIdle 5
        (worldOf (fsOf [("/tmp/x/proofs/5.json", fileLong)]))).1 =
        .error (.errorString "proof missing post hash") :=
  ⟨by decide,
    (get_claim_of_any_length sampleEnv providerIdle 5
      (worldOf (fsOf [("/tmp/x/proofs/5.json", fileLong)])) recordLong (by decide)).2.2
      (by decide) (by decide)⟩

/-! ## The unsupported operation -/

/-- C7 as stated fails: no call of `AbsolutePreState` returns a value to its caller. -/
theorem absolutePreState_returns_nothing :
    ¬ ∃ r : List UInt8, AbsolutePreState providerIdle = .returned r := by
  simp [AbsolutePreState]

/-- C7 amended: for every provider, `AbsolutePreState` returns no value: the call panics with
the message `absolute prestate not yet supported`. -/
theorem absolutePreState_panics (p : CannonTraceProvider) :
    AbsolutePreState p = .panicked "absolute prestate not yet supported" ∧
      ∀ r : List UInt8, AbsolutePreState p ≠ .returned r := by
  simp [AbsolutePreState]

/-! ## Classes of failure -/

/-- C8: when the proof file of index `i` opens, on the first attempt or on the second one
after a successful generation, and its content does not decode, `Get(i)` and `GetPreimage(i)`
fail with the decoder error `derr` wrapped under the message `failed to read proof (path): `;
`derr` is the cause of that error, and the error differs from every error reported for a
file that does not open and from every error reported for a failed generation. -/
theorem decode_failure (env : Env) (p : CannonTraceProvider) (i : Nat) (w : World)
    (file : List UInt8) (derr : GoError)
    (hopen : w.fs (proofPath env p i) = .ok file ∨
      ∃ err fs2, w.fs (proofPath env p i) = .error err ∧ errorsIsNotExist err = true ∧
        p.generator.GenerateProof p.dir i w.fs = (none, fs2) ∧
        fs2 (proofPath env p i) = .ok file)
    (hdec : env.Decode file = .error derr) :
    (Get env p i w).1 =
        .error (Errorf ("failed to read proof (" ++ proofPath env p i ++ "): ") derr) ∧
      (GetPreimage env p i w).1 =
        .error (Errorf ("failed to read proof (" ++ proofPath env p i ++ "): ") derr) ∧
      (Errorf ("failed to read proof (" ++ proofPath env p i ++ "): ") derr).Unwrap =
        some derr ∧
      (∀ (path2 : String) (e2 : GoError),
        Errorf ("failed to read proof (" ++ proofPath env p i ++ "): ") derr ≠
          Errorf ("cannot open proof file (" ++ path2 ++ "): ") e2) ∧
      (∀ (j : Nat) (e2 : GoError),
        Errorf ("failed to read proof (" ++ proofPath env p i ++ "): ") derr ≠
          Errorf ("generate cannon trace with proof at " ++ toString j ++ ": ") e2) := by
  have hl : (loadProof env p i w).1 =
      .error (Errorf ("failed to read proof (" ++ proofPath env p i ++ "): ") derr) := by
    rcases hopen with h | ⟨err, fs2, h, hne, hgen, hfile⟩
    · rw [loadProof_of_open_ok env p i w file h]
      exact loadProofOpened_decode_error env _ file derr _ hdec
    · rw [loadProof_of_generate_ok env p i w err fs2 h hne hgen, hfile]
      exact loadProofOpened_decode_error env _ file derr _ hdec
  refine ⟨Get_of_loadProof_error env p i w _ hl, GetPreimage_of_loadProof_error env p i w _ hl,
    rfl, ?_, ?_⟩
  · intro path2 e2
    exact Errorf_ne_of_head _ _ _ _ (Char.ofNat 102) (Char.ofNat 99) _ _
      (by simp only [String.data_append, String.append_assoc]; rfl)
      (by simp only [String.data_append, String.append_assoc]; rfl) (by decide)
  · intro j e2
    exact Errorf_ne_of_head _ _ _ _ (Char.ofNat 102) (Char.ofNat 103) _ _
      (by simp only [String.data_append, String.append_assoc]; rfl)
      (by simp only [String.data_append, String.append_assoc]; rfl) (by decide)

/-- Witness of C8: the stored file of index 5 is not a proof record. -/
theorem decode_failure_witness :
    (Get sampleEnv providerIdle 5 (worldOf (fsOf [("/tmp/x/proofs/5.json", fileBad)]))).1 =
      .error (Errorf ("failed to read proof (" ++ proofPath sampleEnv providerIdle 5 ++ "): ")
        (.external "invalid character" false)) :=
  (decode_failure sampleEnv providerIdle 5
    (worldOf (fsOf [("/tmp/x/proofs/5.json", fileBad)])) fileBad
    (.external "invalid character" false) (Or.inl (by decide)) (by decide)).1

/-- C9 as stated fails: the stored record of index 5 has an all-zero `post`, and the error
`Get(5)` returns has no cause and a message that does not contain the index. -/
theorem missing_claim_error_is_bare :
    ∃ e : GoError,
      (Get sampleEnv providerIdle 5
        (worldOf (fsOf [("/tmp/x/proofs/5.json", fileZero)]))).1 = .error e ∧
      e.Unwrap = none ∧ ¬ e.mentions (toString 5) :=
  ⟨.errorString "proof missing post hash", by decide, rfl, by decide⟩

/-- C9 amended: every error `e` that `Get(i)` or `GetPreimage(i)` returns is one of these.
A generation failure: the first open found no file, `GenerateProof(dir, i)` returned the
error `c`, and `e` has `c` as its cause and a message that contains the index. An open
failure: `c` is the error of the open that failed (the first one, or the one after a
successful generation), and `e` has `c` as its cause and a message that contains the path of
the proof file of index `i`. A decode failure: `c` is the error of the decoder on the opened
file, and `e` has `c` as its cause and a message that contains that path. One of the three
fixed errors `proof missing post hash`, `proof missing state data`,
`proof missing proof data`, which has no cause and whose message does not contain the
index. -/
theorem failure_carries (env : Env) (p : CannonTraceProvider) (i : Nat) (w : World)
    (e : GoError)
    (hfail : (Get env p i w).1 = .error e ∨ (GetPreimage env p i w).1 = .error e) :
    (∃ err c fs2, w.fs (proofPath env p i) = .error err ∧ errorsIsNotExist err = true ∧
        p.generator.GenerateProof p.dir i w.fs = (some c, fs2) ∧
        e = .wrapError ("generate cannon trace with proof at " ++ toString i ++ ": " ++
          c.Error) c ∧
        e.Unwrap = some c ∧ e.mentions (toString i)) ∨
      (∃ c, (w.fs (proofPath env p i) = .error c ∧ errorsIsNotExist c = false ∨
          ∃ err fs2, w.fs (proofPath env p i) = .error err ∧ errorsIsNotExist err = true ∧
            p.generator.GenerateProof p.dir i w.fs = (none, fs2) ∧
            fs2 (proofPath env p i) = .error c) ∧
        e = .wrapError ("cannot open proof file (" ++ proofPath env p i ++ "): " ++
          c.Error) c ∧
        e.Unwrap = some c ∧ e.mentions (proofPath env p i)) ∨
      (∃ file c, (w.fs (proofPath env p i) = .ok file ∨
          ∃ err fs2, w.fs (proofPath env p i) = .error err ∧ errorsIsNotExist err = true ∧
            p.generator.GenerateProof p.dir i w.fs = (none, fs2) ∧
            fs2 (proofPath env p i) = .ok file) ∧
        env.Decode file = .error c ∧
        e = .wrapError ("failed to read proof (" ++ proofPath env p i ++ "): " ++
          c.Error) c ∧
        e.Unwrap = some c ∧ e.mentions (proofPath env p i)) ∨
      (e.Unwrap = none ∧ ¬ e.mentions (toString i) ∧
        (e = .errorString "proof missing post hash" ∨
          e = .errorString "proof missing state data" ∨
          e = .errorString "proof missing proof data")) := by
  have hcases : (loadProof env p i w).1 = .error e ∨
      (e = .errorString "proof missing post hash" ∨
        e = .errorString "proof missing state data" ∨
        e = .errorString "proof missing proof data") := by
    rcases hfail with h | h
    · rcases Get_error_cases env p i w e h with h1 | h1
      · exact Or.inl h1
      · exact Or.inr (Or.inl h1)
    · rcases GetPreimage_error_cases env p i w e h with h1 | h1
      · exact Or.inl h1
      · exact Or.inr (Or.inr h1)
  rcases hcases with hl | hv
  · rcases loadProof_error_origin env p i w e hl with
      ⟨err, c, fs2, h1, h2, h3, hc⟩ | ⟨c, ho, hc⟩ | ⟨file, c, ho, hd, hc⟩
    · exact Or.inl ⟨err, c, fs2, h1, h2, h3, hc, by rw [hc]; rfl,
        by rw [hc]; exact wrapError_mentions _ _ _ _ _⟩
    · exact Or.inr (Or.inl ⟨c, ho, hc, by rw [hc]; rfl,
        by rw [hc]; exact wrapError_mentions _ _ _ _ _⟩)
    · exact Or.inr (Or.inr (Or.inl ⟨file, c, ho, hd, hc, by rw [hc]; rfl,
        by rw [hc]; exact wrapError_mentions _ _ _ _ _⟩))
  · refine Or.inr (Or.inr (Or.inr ⟨?_, ?_, hv⟩))
    · rcases hv with h | h | h <;> rw [h] <;> rfl
    · rcases hv with h | h | h <;> rw [h] <;>
        exact not_mentions_index _ i (by decide)

/-- Witness of C9 amended: index 5 is absent and the generator fails with `emulator crashed`;
the error returned is the generation failure `sampleGenerationFailure`. -/
theorem failure_carries_witness :
    (Get sampleEnv providerFailing 5 (worldOf (fsOf []))).1 = .error sampleGenerationFailure ∧
      ((∃ err c fs2, (worldOf (fsOf [])).fs (proofPath sampleEnv providerFailing 5) = .error err ∧ errorsIsNotExist err = true ∧
        providerFailing.generator.GenerateProof providerFailing.dir 5 (worldOf (fsOf [])).fs = (some c, fs2) ∧
        sampleGenerationFailure = .wrapError ("generate cannon trace with proof at " ++ toString 5 ++ ": " ++
          c.Error) c ∧
        sampleGenerationFailure.Unwrap = some c ∧ sampleGenerationFailure.mentions (toString 5)) ∨
      (∃ c, ((worldOf (fsOf [])).fs (proofPath sampleEnv providerFailing 5) = .error c ∧ errorsIsNotExist c = false ∨
          ∃ err fs2, (worldOf (fsOf [])).fs (proofPath sampleEnv providerFailing 5) = .error err ∧ errorsIsNotExist err = true ∧
            providerFailing.generator.GenerateProof providerFailing.dir 5 (worldOf (fsOf [])).fs = (none, fs2) ∧
            fs2 (proofPath sampleEnv providerFailing 5) = .error c) ∧
        sampleGenerationFailure = .wrapError ("cannot open proof file (" ++ proofPath sampleEnv providerFailing 5 ++ "): " ++
          c.Error) c ∧
        sampleGenerationFailure.Unwrap = some c ∧ sampleGenerationFailure.mentions (proofPath sampleEnv providerFailing 5)) ∨
      (∃ file c, ((worldOf (fsOf [])).fs (proofPath sampleEnv providerFailing 5) = .ok file ∨
          ∃ err fs2, (worldOf (fsOf [])).fs (proofPath sampleEnv providerFailing 5) = .error err ∧ errorsIsNotExist err = true ∧
            providerFailing.generator.GenerateProof providerFailing.dir 5 (worldOf (fsOf [])).fs = (none, fs2) ∧
            fs2 (proofPath sampleEnv providerFailing 5) = .ok file) ∧
        sampleEnv.Decode file = .error c ∧
        sampleGenerationFailure = .wrapError ("failed to read proof (" ++ proofPath sampleEnv providerFailing 5 ++ "): " ++
          c.Error) c ∧
        sampleGenerationFailure.Unwrap = some c ∧ sampleGenerationFailure.mentions (proofPath sampleEnv providerFailing 5)) ∨
      (sampleGenerationFailure.Unwrap = none ∧ ¬ sampleGenerationFailure.mentions (toString 5) ∧
        (sampleGenerationFailure = .errorString "proof missing post hash" ∨
          sampleGenerationFailure = .errorString "proof missing state data" ∨
          sampleGenerationFailure = .errorString "proof missing proof data"))) :=
  ⟨by decide,
    failure_carries sampleEnv providerFailing 5 (worldOf (fsOf [])) sampleGenerationFailure
      (Or.inl (by decide))⟩

end Cannon
